import Mathlib

/-
Verification of the JWT authentication core of the matiq backend.

The embedded code is:
  * src/core/auth.py      -- decode_jwt, extract_user_from_jwt, get_current_user,
                             get_optional_current_user, get_supabase_public_key,
                             get_jwt_validation_key, AuthenticatedUser
  * src/dependencies/auth.py -- require_role

JSON claim values are modelled by the inductive `Json` (numbers as integers:
no claim used by the code carries a fractional value).  The behaviour of the
external PyJWT library's jwt.decode, with the exact options passed by
decode_jwt (verify_signature, verify_exp and verify_iat on, verify_aud and
verify_iss off), is modelled by `jwtDecode` over an idealised token
(`Token`): a token's signature verifies against key k and algorithm a
exactly when the token was signed with k under a.  PyJWT checks, in order:
token structure, allowed algorithm, signature, then the iat claim, the nbf
claim (verify_nbf defaults to true and decode_jwt's options leave it on)
and then the exp claim; iat/nbf/exp values go through Python int()
(modelled by `pyInt`), where a non-numeric string raises ValueError
(reported as an invalid-token error) and a null/array/object raises
TypeError (an unexpected error).
HTTPException is modelled by `HttpError` (status, detail); the constant
WWW-Authenticate: Bearer header the code attaches to every auth error is
not modelled.  Python exceptions that are not HTTPException (the duplicate
keyword-argument TypeError that AuthenticatedUser's constructor can raise)
are the `PyError.typeError` branch.
-/

namespace MatiqAuth

/-- JSON value, as produced by decoding a JWT payload.  Numbers are modelled
as integers. -/
inductive Json where
  | null : Json
  | bool (b : Bool) : Json
  | num (n : Int) : Json
  | str (s : String) : Json
  | arr (elems : List Json) : Json
  | obj (fields : List (String × Json)) : Json

/-- Python truthiness of a JSON value: None, False, 0, "", [] and \x7b\x7d are
falsy, everything else is truthy. -/
def Json.truthy : Json → Bool
  | .null => false
  | .bool b => b
  | .num n => n != 0
  | .str s => s != ""
  | .arr elems => !elems.isEmpty
  | .obj fields => !fields.isEmpty

/-- Truthiness of `payload.get(k)`: a missing key yields Python None, which is
falsy. -/
def truthyOpt : Option Json → Bool
  | none => false
  | some j => j.truthy

/-- Whether a JSON value is a string. -/
def Json.isStr : Json → Bool
  | .str _ => true
  | _ => false

/-- Whether a string contains the character @, a necessary condition for
being syntactically an email address. -/
def hasAtSign (s : String) : Bool :=
  s.data.any fun c => c == '@'

/-- Python `value == r` where r is a str: only an equal str compares equal. -/
def jsonEqStr : Json → String → Bool
  | .str s, r => s == r
  | _, _ => false

/-- Result of Python int() coercion as PyJWT applies it to iat/exp claims:
ints and bools coerce, a string coerces when it parses as an integer and
raises ValueError otherwise, and None/array/object raise TypeError. -/
inductive PyIntResult where
  | ok (n : Int) : PyIntResult
  | valueError : PyIntResult
  | typeError : PyIntResult

/-- Python int() on a JSON claim value (see PyIntResult). -/
def pyInt : Json → PyIntResult
  | .num n => .ok n
  | .bool b => .ok (if b then 1 else 0)
  | .str s =>
    match s.toInt? with
    | some n => .ok n
    | none => .valueError
  | _ => .typeError

/-- FastAPI HTTPException, reduced to status code and detail string.  Every
auth error in the source also carries the header WWW-Authenticate: Bearer,
identical on all of them, which is not modelled. -/
structure HttpError where
  status : Nat
  detail : String
deriving DecidableEq

/-- HTTPException raised by decode_jwt on jwt.ExpiredSignatureError. -/
def expiredErr : HttpError := ⟨401, "Token has expired"⟩

/-- HTTPException raised by decode_jwt on jwt.InvalidTokenError. -/
def invalidTokenErr : HttpError := ⟨401, "Invalid token"⟩

/-- HTTPException raised by decode_jwt on any other exception. -/
def validationFailedErr : HttpError := ⟨401, "Token validation failed"⟩

/-- HTTPException raised by extract_user_from_jwt when sub is missing/empty. -/
def missingSubjectErr : HttpError := ⟨401, "Invalid token: missing user ID"⟩

/-- HTTPException raised by extract_user_from_jwt when email is missing/empty. -/
def missingEmailErr : HttpError := ⟨401, "Invalid token: missing email"⟩

/-- HTTPException raised by get_current_user on an empty token string. -/
def emptyHeaderErr : HttpError := ⟨401, "Invalid authorization header"⟩

/-- HTTPException raised by require_role's dependency on a role mismatch. -/
def forbiddenErr (required_role : String) : HttpError :=
  ⟨403, "Access denied. Required role: " ++ required_role⟩

/-- Message of the TypeError CPython raises when a keyword argument is given
twice (once explicitly and once through mapping unpacking). -/
def duplicateKwargMsg : String := "got multiple values for keyword argument"

/-- A Python exception escaping one of the auth functions: either a FastAPI
HTTPException (the classified auth errors) or an unclassified TypeError. -/
inductive PyError where
  | http (e : HttpError) : PyError
  | typeError (msg : String) : PyError

/-- Idealised JWT offered by a client.  `raw` is the literal token string
taken from the Authorization header; `wellFormed` says the string parses as
a structurally valid JWT; `alg` is the algorithm named in its header and
`key` the key its signature was produced with; `payload` is the decoded
claim set.  Signature verification against (k, a) succeeds exactly when
key = k and alg = a. -/
structure Token where
  raw : String
  wellFormed : Bool
  alg : String
  key : String
  payload : List (String × Json)

/-- Container for authenticated user information extracted from JWT
(class AuthenticatedUser).  In the source user_id and email are whatever
claim values the payload held (no type enforcement), so they are Json here;
raw_claims is the kwargs dict. -/
structure AuthenticatedUser where
  user_id : Json
  email : Json
  raw_claims : List (String × Json)

/-- Outcome of PyJWT's jwt.decode, before decode_jwt's exception mapping.
`invalid` stands for any jwt.InvalidTokenError other than expiry (bad
structure, disallowed algorithm, bad signature, malformed iat/exp, immature
iat); `internalError` for a non-PyJWT exception escaping the decode (the
TypeError from int() on a None/array/object time claim). -/
inductive JwtOutcome where
  | ok (payload : List (String × Json)) : JwtOutcome
  | expired : JwtOutcome
  | invalid : JwtOutcome
  | internalError : JwtOutcome

/-- PyJWT validation of the exp claim (verify_exp): absent exp passes; a
non-coercible exp is a DecodeError (invalid) or TypeError (internal); an exp
less than or equal to the current time is ExpiredSignatureError. -/
def validateExp (payload : List (String × Json)) (now : Int) : JwtOutcome :=
  match payload.lookup "exp" with
  | none => .ok payload
  | some v =>
    match pyInt v with
    | .typeError => .internalError
    | .valueError => .invalid
    | .ok e => if e ≤ now then .expired else .ok payload

/-- PyJWT validation of the nbf claim (verify_nbf, on by default and not
disabled by decode_jwt's options): absent nbf passes; a non-coercible nbf
is a DecodeError (invalid) or TypeError (internal); an nbf in the future is
an ImmatureSignatureError (invalid). -/
def validateNbf (payload : List (String × Json)) (now : Int) : JwtOutcome :=
  match payload.lookup "nbf" with
  | none => validateExp payload now
  | some v =>
    match pyInt v with
    | .typeError => .internalError
    | .valueError => .invalid
    | .ok nbf => if now < nbf then .invalid else validateExp payload now

/-- PyJWT validation of the time claims, iat first, then nbf, then exp (the
order of _validate_claims): a non-coercible iat is an InvalidIssuedAtError
(invalid) or TypeError (internal); an iat in the future is an
ImmatureSignatureError (invalid). -/
def validateTimeClaims (payload : List (String × Json)) (now : Int) : JwtOutcome :=
  match payload.lookup "iat" with
  | none => validateNbf payload now
  | some v =>
    match pyInt v with
    | .typeError => .internalError
    | .valueError => .invalid
    | .ok iat => if now < iat then .invalid else validateNbf payload now

/-- PyJWT jwt.decode with algorithms=[valg] and the options decode_jwt
passes: malformed token → DecodeError; header algorithm not in the allowed
list → InvalidAlgorithmError; signature produced with a different key →
InvalidSignatureError; then time-claim validation. -/
def jwtDecode (vkey valg : String) (now : Int) (t : Token) : JwtOutcome :=
  if !t.wellFormed then .invalid
  else if t.alg != valg then .invalid
  else if t.key != vkey then .invalid
  else validateTimeClaims t.payload now

/-- decode_jwt (src/core/auth.py): maps PyJWT's outcome to HTTPException,
ExpiredSignatureError first, then InvalidTokenError, then everything else. -/
def decode_jwt (vkey valg : String) (now : Int) (t : Token) :
    Except HttpError (List (String × Json)) :=
  match jwtDecode vkey valg now t with
  | .ok payload => .ok payload
  | .expired => .error expiredErr
  | .invalid => .error invalidTokenErr
  | .internalError => .error validationFailedErr

/-- extract_user_from_jwt (src/core/auth.py): reads sub and email, rejects a
falsy sub then a falsy email, and otherwise calls
AuthenticatedUser(user_id=sub, email=email, **rest) where rest is every
claim other than sub/email.  The CPython call raises TypeError when rest
itself contains the key "user_id" (duplicate keyword argument) or the key
"self" (multiple values for the implicit first argument); "email" cannot
collide since it is filtered out of rest. -/
def extract_user_from_jwt (payload : List (String × Json)) :
    Except PyError AuthenticatedUser :=
  let user_id := payload.lookup "sub"
  let email := payload.lookup "email"
  if truthyOpt user_id = false then .error (.http missingSubjectErr)
  else if truthyOpt email = false then .error (.http missingEmailErr)
  else
    let kwargs := payload.filter fun kv => kv.1 != "sub" && kv.1 != "email"
    if kwargs.any fun kv => kv.1 == "user_id" || kv.1 == "self" then
      .error (.typeError duplicateKwargMsg)
    else .ok ⟨user_id.getD .null, email.getD .null, kwargs⟩

/-- get_current_user (src/core/auth.py), given the resolved validation key
and algorithm, the current time and the presented token: empty token string
→ 401; otherwise decode_jwt then extract_user_from_jwt. -/
def get_current_user (vkey valg : String) (now : Int) (t : Token) :
    Except PyError AuthenticatedUser :=
  if t.raw == "" then .error (.http emptyHeaderErr)
  else
    match decode_jwt vkey valg now t with
    | .error e => .error (.http e)
    | .ok payload => extract_user_from_jwt payload

/-- get_optional_current_user (src/core/auth.py): no credentials, or an
empty token string, yields None without error; otherwise delegates to
get_current_user, re-raising whatever it raises. -/
def get_optional_current_user (vkey valg : String) (now : Int)
    (creds : Option Token) : Except PyError (Option AuthenticatedUser) :=
  match creds with
  | none => .ok none
  | some t =>
    if t.raw == "" then .ok none
    else
      match get_current_user vkey valg now t with
      | .ok u => .ok (some u)
      | .error e => .error e

/-- require_role (src/dependencies/auth.py): the returned dependency runs
get_current_user, reads raw_claims.get("role", "") and raises 403 naming the
required role unless it equals required_role. -/
def require_role (required_role : String) (vkey valg : String) (now : Int)
    (t : Token) : Except PyError AuthenticatedUser :=
  match get_current_user vkey valg now t with
  | .error e => .error e
  | .ok u =>
    let user_role := (u.raw_claims.lookup "role").getD (.str "")
    if jsonEqStr user_role required_role then .ok u
    else .error (.http (forbiddenErr required_role))

/-- Configuration fields of src/core/config.py consumed by the auth core. -/
structure Settings where
  SUPABASE_URL : String
  SUPABASE_JWT_SECRET : String
  JWT_ALGORITHM : String

/-- Outcome of the JWKS discovery request issued by get_supabase_public_key:
requests.get/raise_for_status failing with a RequestException, any other
exception while parsing or processing the response, or a parsed JSON body. -/
inductive FetchOutcome where
  | requestError : FetchOutcome
  | processError : FetchOutcome
  | ok (body : Json) : FetchOutcome

/-- The keys array of a JWKS response body: present only when the body is an
object whose "keys" field is an array.  Any other shape makes the source
return None, either through its explicit keys check or through the
catch-all exception handler when indexing/JWK conversion fails. -/
def jwksKeys : Json → Option (List Json)
  | .obj fields =>
    match fields.lookup "keys" with
    | some (.arr ks) => some ks
    | _ => none
  | _ => none

/-- The guard at the top of get_supabase_public_key: the URL is considered
configured unless it is empty or the placeholder default. -/
def supabase_url_configured (s : Settings) : Bool :=
  !(s.SUPABASE_URL == "" || s.SUPABASE_URL == "https://your-supabase-url.supabase.co")

/-- get_supabase_public_key (src/core/auth.py), uncached body.  `fetch` is
the outcome of the network request and `convert` models
RSAAlgorithm.from_jwk followed by PEM serialisation on the first JWKS key
(none meaning that conversion raised, which the catch-all handler turns
into None).  Every failure path returns None; the function never raises. -/
def get_supabase_public_key (s : Settings) (fetch : FetchOutcome)
    (convert : Json → Option String) : Option String :=
  if !supabase_url_configured s then none
  else
    match fetch with
    | .requestError => none
    | .processError => none
    | .ok body =>
      match jwksKeys body with
      | none => none
      | some [] => none
      | some (k :: _) => convert k

/-- get_jwt_validation_key (src/core/auth.py), parametrised by the result of
get_supabase_public_key: a truthy public key selects RS256, anything else
falls back to the configured secret and algorithm. -/
def get_jwt_validation_key (s : Settings) (pk : Option String) :
    String × String :=
  match pk with
  | some k => if k != "" then (k, "RS256") else (s.SUPABASE_JWT_SECRET, s.JWT_ALGORITHM)
  | none => (s.SUPABASE_JWT_SECRET, s.JWT_ALGORITHM)

/-- One call to the lru_cache-wrapped get_supabase_public_key: the value
returned, the cache cell afterwards, and whether a network request was
attempted during the call. -/
structure CacheCall where
  result : Option String
  cache : Option (Option String)
  networkAttempt : Bool

/-- get_supabase_public_key under functools.lru_cache(maxsize=1): a cached
value (success or None alike — the function swallows its exceptions, so the
cached value can be None) is returned with no network activity; otherwise
the body runs once and its result is stored.  The network is touched only
when the URL guard passes. -/
def get_supabase_public_key_cached (cache : Option (Option String))
    (s : Settings) (fetch : FetchOutcome) (convert : Json → Option String) :
    CacheCall :=
  match cache with
  | some r => ⟨r, some r, false⟩
  | none =>
    ⟨get_supabase_public_key s fetch convert,
     some (get_supabase_public_key s fetch convert),
     supabase_url_configured s⟩

/-- The iat claim, when present, passes PyJWT validation at time `now`. -/
def iatOk (payload : List (String × Json)) (now : Int) : Prop :=
  match payload.lookup "iat" with
  | none => True
  | some v => ∃ n, pyInt v = .ok n ∧ n ≤ now

/-- The nbf claim, when present, passes PyJWT validation at time `now`. -/
def nbfOk (payload : List (String × Json)) (now : Int) : Prop :=
  match payload.lookup "nbf" with
  | none => True
  | some v => ∃ n, pyInt v = .ok n ∧ n ≤ now

/-- A valid, unexpired token signed with "secret" whose payload carries a
claim literally named "user_id" next to sub and email. -/
def tok1 : Token :=
  ⟨"tok1", true, "HS256", "secret",
    [("sub", .str "u1"), ("email", .str "a@b.com"),
     ("user_id", .str "legacy"), ("exp", .num 2000)]⟩

/-- A verified claim set containing a "user_id" claim. -/
def payload9 : List (String × Json) :=
  [("sub", .str "u9"), ("email", .str "b@c.de"),
   ("user_id", .num 7), ("role", .str "admin")]

/-- A structurally valid token carrying payload9, signed with "secret". -/
def tok9 : Token := ⟨"tok9", true, "HS256", "secret", payload9⟩

/-- A structurally malformed token. -/
def tok2 : Token := ⟨"x", false, "HS256", "secret", []⟩

/-- A correctly signed token whose exp is long past but whose iat claim is
null, a value Python int() rejects with TypeError in every PyJWT version. -/
def tok3 : Token :=
  ⟨"tok3", true, "HS256", "secret", [("iat", .null), ("exp", .num 0)]⟩

/-- A correctly signed token with a well-formed past iat and a past exp. -/
def tok3w : Token :=
  ⟨"tok3w", true, "HS256", "secret", [("iat", .num 5), ("exp", .num 50)]⟩

/-- A valid token with sub and email but no role claim. -/
def tok4 : Token :=
  ⟨"tok4", true, "HS256", "secret",
    [("sub", .str "u1"), ("email", .str "a@b.com"), ("exp", .num 100)]⟩

/-- The identity extracted from tok4. -/
def user4 : AuthenticatedUser :=
  ⟨.str "u1", .str "a@b.com", [("exp", .num 100)]⟩

/-- A valid token whose role claim is "coach". -/
def tok4w : Token :=
  ⟨"tok4w", true, "HS256", "secret",
    [("sub", .str "u1"), ("email", .str "a@b.com"),
     ("role", .str "coach"), ("exp", .num 100)]⟩

/-- The identity extracted from tok4w. -/
def user4w : AuthenticatedUser :=
  ⟨.str "u1", .str "a@b.com", [("role", .str "coach"), ("exp", .num 100)]⟩

/-- A configured Settings value. -/
def s6 : Settings := ⟨"https://example.supabase.co", "shh", "HS256"⟩

/-- A JWKS body with one key. -/
def body6 : Json := .obj [("keys", .arr [.obj []])]

/-- A JWK-to-PEM conversion that succeeds with a fixed PEM string. -/
def conv6 : Json → Option String := fun _ => some "PEMKEY"

/-- A claim set with truthy sub and email and one extra claim. -/
def p8 : List (String × Json) :=
  [("sub", .str "u1"), ("email", .str "a@b.com"), ("role", .str "coach")]

/-- The identity extracted from p8. -/
def u8 : AuthenticatedUser :=
  ⟨.str "u1", .str "a@b.com", [("role", .str "coach")]⟩

/-- A claim set whose sub is a number and whose email string is not an email
address. -/
def p8c : List (String × Json) := [("sub", .num 5), ("email", .str "x")]

/-- C2: a token signed with a key other than the resolved verification key,
or malformed (bad structure, unsupported algorithm), is rejected by
decode_jwt with the 401 "Invalid token" error, regardless of its claim
contents. -/
theorem C2_invalid_token (vkey valg : String) (now : Int) (t : Token)
    (h : t.wellFormed = false ∨ t.alg ≠ valg ∨ t.key ≠ vkey) :
    decode_jwt vkey valg now t = .error invalidTokenErr := by
  have hj : jwtDecode vkey valg now t = JwtOutcome.invalid := by
    unfold jwtDecode
    rcases h with h | h | h
    · simp [h]
    · cases hw : t.wellFormed <;> simp [hw, h]
    · cases hw : t.wellFormed <;> cases ha : t.alg == valg <;> simp_all
  simp [decode_jwt, hj]

/-- C2 witness: the malformed token tok2 is rejected as "Invalid token". -/
theorem C2_witness : decode_jwt "secret" "HS256" 0 tok2 = .error invalidTokenErr :=
  C2_invalid_token "secret" "HS256" 0 tok2 (Or.inl rfl)

/-- C3 counterexample: tok3 is correctly signed and its exp (0) is strictly
before the current time (100), yet decode_jwt reports "Token validation
failed", not "Token has expired", because PyJWT validates the malformed iat
claim before exp and the resulting TypeError lands in decode_jwt's
catch-all handler. -/
theorem C3_counterexample :
    decode_jwt "secret" "HS256" 100 tok3 = .error validationFailedErr
    ∧ validationFailedErr ≠ expiredErr := ⟨rfl, by decide⟩

/-- C3 (amended): a correctly signed token whose iat and nbf claims, when
present, are well-formed timestamps not in the future, and whose exp is
strictly before the current time, is rejected by decode_jwt with the 401
"Token has expired" error. -/
theorem C3_expired (vkey valg : String) (now : Int) (t : Token) (v : Json)
    (e : Int) (hwf : t.wellFormed = true) (halg : t.alg = valg)
    (hkey : t.key = vkey) (hiat : iatOk t.payload now)
    (hnbf : nbfOk t.payload now)
    (hexp : t.payload.lookup "exp" = some v) (hv : pyInt v = .ok e)
    (he : e < now) :
    decode_jwt vkey valg now t = .error expiredErr := by
  have hexp2 : validateExp t.payload now = .expired := by
    simp only [validateExp, hexp, hv]
    simp [he.le]
  have hnbf2 : validateNbf t.payload now = .expired := by
    unfold nbfOk at hnbf
    cases hb : t.payload.lookup "nbf" with
    | none => simpa [validateNbf, hb] using hexp2
    | some w =>
      rw [hb] at hnbf
      obtain ⟨n, hn, hle⟩ := hnbf
      simp only [validateNbf, hb, hn]
      simp [not_lt.mpr hle, hexp2]
  have htc : validateTimeClaims t.payload now = .expired := by
    unfold iatOk at hiat
    cases hi : t.payload.lookup "iat" with
    | none => simpa [validateTimeClaims, hi] using hnbf2
    | some w =>
      rw [hi] at hiat
      obtain ⟨n, hn, hle⟩ := hiat
      simp only [validateTimeClaims, hi, hn]
      simp [not_lt.mpr hle, hnbf2]
  have hj : jwtDecode vkey valg now t = JwtOutcome.expired := by
    unfold jwtDecode
    simp [hwf, halg, hkey, htc]
  simp [decode_jwt, hj]

/-- C3 witness: tok3w, signed with "secret", iat 5, no nbf and exp 50, is
rejected as expired at time 100. -/
theorem C3_witness : decode_jwt "secret" "HS256" 100 tok3w = .error expiredErr :=
  C3_expired "secret" "HS256" 100 tok3w (.num 50) 50 rfl rfl rfl
    ⟨5, rfl, by decide⟩ trivial rfl rfl (by decide)

/-- C1: tok1 is a valid, unexpired token correctly signed with the resolved
key, its payload contains truthy sub and email — yet get_current_user does
not yield an identity: the extra claim named "user_id" collides with the
user_id keyword argument of AuthenticatedUser's constructor and the call
dies with an unclassified TypeError instead. -/
theorem C1_user_id_claim_breaks_auth :
    decode_jwt "secret" "HS256" 1000 tok1 = .ok tok1.payload
    ∧ truthyOpt (tok1.payload.lookup "sub") = true
    ∧ truthyOpt (tok1.payload.lookup "email") = true
    ∧ get_current_user "secret" "HS256" 1000 tok1
        = .error (.typeError duplicateKwargMsg) :=
  ⟨rfl, rfl, rfl, rfl⟩

/-- C9: there is a successfully verified claim set, payload9, containing a
claim literally named "user_id" alongside valid sub and email, on which
extract_user_from_jwt fails with the duplicate-keyword TypeError — not with
any HTTPException of the 401/403 taxonomy. -/
theorem C9_unclassified_extract_failure :
    decode_jwt "secret" "HS256" 50 tok9 = .ok payload9
    ∧ extract_user_from_jwt payload9 = .error (.typeError duplicateKwargMsg) :=
  ⟨rfl, rfl⟩

/-- C4 counterexample: with required role the empty string, require_role
succeeds on tok4 even though tok4's payload has no role claim at all,
because the source reads raw_claims.get("role", "") and compares the
default "" against the required role. -/
theorem C4_counterexample :
    require_role "" "secret" "HS256" 50 tok4 = .ok user4
    ∧ tok4.payload.lookup "role" = none := ⟨rfl, rfl⟩

/-- C4 (amended): require_role R succeeds exactly when get_current_user
succeeds and the role claim — read as "" when absent — equals R; a mismatch
fails with 403 naming the required role, and an absent role claim fails
that way whenever R is nonempty. -/
theorem require_role_of_ok (required_role vkey valg : String) (now : Int)
    (t : Token) (u0 : AuthenticatedUser)
    (hgc : get_current_user vkey valg now t = .ok u0) :
    require_role required_role vkey valg now t =
      if jsonEqStr ((u0.raw_claims.lookup "role").getD (.str "")) required_role
      then .ok u0 else .error (.http (forbiddenErr required_role)) := by
  unfold require_role
  rw [hgc]

theorem require_role_of_err (required_role vkey valg : String) (now : Int)
    (t : Token) (e : PyError)
    (hgc : get_current_user vkey valg now t = .error e) :
    require_role required_role vkey valg now t = .error e := by
  unfold require_role
  rw [hgc]

theorem C4_role_gate (required_role vkey valg : String) (now : Int)
    (t : Token) :
    (∀ u, require_role required_role vkey valg now t = .ok u ↔
      (get_current_user vkey valg now t = .ok u ∧
        jsonEqStr ((u.raw_claims.lookup "role").getD (.str ""))
          required_role = true))
    ∧ (∀ u, get_current_user vkey valg now t = .ok u →
        jsonEqStr ((u.raw_claims.lookup "role").getD (.str ""))
          required_role = false →
        require_role required_role vkey valg now t
          = .error (.http (forbiddenErr required_role)))
    ∧ (∀ u, get_current_user vkey valg now t = .ok u →
        u.raw_claims.lookup "role" = none → required_role ≠ "" →
        require_role required_role vkey valg now t
          = .error (.http (forbiddenErr required_role))) := by
  refine ⟨?_, ?_, ?_⟩
  · intro u
    cases hgc : get_current_user vkey valg now t with
    | error e =>
      rw [require_role_of_err required_role vkey valg now t e hgc]
      simp
    | ok u0 =>
      rw [require_role_of_ok required_role vkey valg now t u0 hgc]
      by_cases hr : jsonEqStr ((u0.raw_claims.lookup "role").getD (.str ""))
          required_role = true
      · rw [if_pos hr]
        constructor
        · intro hh
          cases hh
          exact ⟨rfl, hr⟩
        · intro hh
          cases Except.ok.inj hh.1
          rfl
      · rw [if_neg hr]
        constructor
        · intro hh
          exact Except.noConfusion hh
        · rintro ⟨h1, h2⟩
          cases Except.ok.inj h1
          exact absurd h2 hr
  · intro u hgc hr
    rw [require_role_of_ok required_role vkey valg now t u hgc,
      if_neg (by simp [hr])]
  · intro u hgc hnone hne
    rw [require_role_of_ok required_role vkey valg now t u hgc, if_neg]
    rw [hnone]
    simp only [Option.getD_none, jsonEqStr, beq_iff_eq]
    exact fun hc => hne hc.symm

/-- C4 witness: tok4w carries role "coach", so require_role "admin" rejects
it with the 403 error naming "admin". -/
theorem C4_witness :
    require_role "admin" "secret" "HS256" 50 tok4w
      = .error (.http (forbiddenErr "admin")) :=
  (C4_role_gate "admin" "secret" "HS256" 50 tok4w).2.1 user4w rfl rfl

/-- C5: get_optional_current_user yields no identity and no error when the
credential is absent or its token string is empty, and on any present
non-empty token it agrees exactly with get_current_user — the same identity
on success and the same error on failure. -/
theorem C5_optional_auth (vkey valg : String) (now : Int) :
    (get_optional_current_user vkey valg now none = .ok none)
    ∧ (∀ t : Token, t.raw = "" →
        get_optional_current_user vkey valg now (some t) = .ok none)
    ∧ (∀ t : Token, t.raw ≠ "" →
        get_optional_current_user vkey valg now (some t)
          = Except.map some (get_current_user vkey valg now t)) := by
  refine ⟨rfl, ?_, ?_⟩
  · intro t h
    simp [get_optional_current_user, h]
  · intro t h
    have hb : (t.raw == "") = false := by simp [h]
    cases hgc : get_current_user vkey valg now t with
    | error e => simp [get_optional_current_user, hb, hgc, Except.map]
    | ok u => simp [get_optional_current_user, hb, hgc, Except.map]

/-- C5 witness: on tok4 (non-empty token string) the optional dependency
returns exactly the required dependency's outcome, wrapped in some. -/
theorem C5_witness :
    get_optional_current_user "secret" "HS256" 50 (some tok4)
      = Except.map some (get_current_user "secret" "HS256" 50 tok4) :=
  (C5_optional_auth "secret" "HS256" 50).2.2 tok4 (by decide)

/-- C6: key resolution returns the fetched JWKS key with the RS256 tag when
discovery is configured and yields a usable (truthy) key, and in every other
case — discovery unset, request failure, processing failure, or an
empty/unusable keys array — returns the configured secret with the
configured algorithm; both functions are total, so resolution never
raises. -/
theorem C6_key_resolution (s : Settings) (fetch : FetchOutcome)
    (convert : Json → Option String) :
    (∀ pem, get_supabase_public_key s fetch convert = some pem → pem ≠ "" →
      get_jwt_validation_key s (get_supabase_public_key s fetch convert)
        = (pem, "RS256"))
    ∧ (get_supabase_public_key s fetch convert = none →
      get_jwt_validation_key s (get_supabase_public_key s fetch convert)
        = (s.SUPABASE_JWT_SECRET, s.JWT_ALGORITHM))
    ∧ (get_supabase_public_key s fetch convert = some "" →
      get_jwt_validation_key s (get_supabase_public_key s fetch convert)
        = (s.SUPABASE_JWT_SECRET, s.JWT_ALGORITHM))
    ∧ (supabase_url_configured s = false →
      get_supabase_public_key s fetch convert = none)
    ∧ ((fetch = .requestError ∨ fetch = .processError) →
      get_supabase_public_key s fetch convert = none)
    ∧ (∀ body, fetch = .ok body →
      (jwksKeys body = none ∨ jwksKeys body = some []) →
      get_supabase_public_key s fetch convert = none) := by
  refine ⟨?_, ?_, ?_, ?_, ?_, ?_⟩
  · intro pem hpk hne
    rw [hpk]
    simp [get_jwt_validation_key, hne]
  · intro h
    rw [h]
    rfl
  · intro h
    rw [h]
    rfl
  · intro h
    simp [get_supabase_public_key, h]
  · intro h
    rcases h with h | h <;> cases hc : supabase_url_configured s <;>
      simp [get_supabase_public_key, h, hc]
  · intro body hb hk
    subst hb
    rcases hk with hk | hk <;> cases hc : supabase_url_configured s <;>
      simp [get_supabase_public_key, hk, hc]

/-- C6 witness: with a configured URL, a one-key JWKS body and a conversion
yielding "PEMKEY", key resolution returns ("PEMKEY", "RS256"). -/
theorem C6_witness :
    get_jwt_validation_key s6 (get_supabase_public_key s6 (.ok body6) conv6)
      = ("PEMKEY", "RS256") :=
  (C6_key_resolution s6 (.ok body6) conv6).1 "PEMKEY" rfl (by decide)

/-- C7: extract_user_from_jwt checks sub before email — when both claims are
falsy the reported error is the missing-user-ID one, and the missing-email
error is reported only when sub is truthy (and email falsy), so the two
errors are never aggregated. -/
theorem C7_sub_before_email (payload : List (String × Json)) :
    (truthyOpt (payload.lookup "sub") = false →
      truthyOpt (payload.lookup "email") = false →
      extract_user_from_jwt payload = .error (.http missingSubjectErr))
    ∧ (extract_user_from_jwt payload = .error (.http missingEmailErr) →
      truthyOpt (payload.lookup "sub") = true
        ∧ truthyOpt (payload.lookup "email") = false) := by
  constructor
  · intro h1 _
    simp [extract_user_from_jwt, h1]
  · intro h
    cases hs : truthyOpt (payload.lookup "sub") with
    | false =>
      exfalso
      have h2 : extract_user_from_jwt payload
          = .error (.http missingSubjectErr) := by
        simp [extract_user_from_jwt, hs]
      rw [h2] at h
      simp [missingSubjectErr, missingEmailErr] at h
    | true =>
      cases he : truthyOpt (payload.lookup "email") with
      | false => exact ⟨rfl, rfl⟩
      | true =>
        exfalso
        simp [extract_user_from_jwt, hs, he] at h
        split at h <;> simp_all

/-- C7 witness: a claim set with neither sub nor email is rejected with the
missing-user-ID error. -/
theorem C7_witness :
    extract_user_from_jwt [("foo", Json.num 1)]
      = .error (.http missingSubjectErr) :=
  (C7_sub_before_email [("foo", Json.num 1)]).1 rfl rfl

/-- C8 counterexample: the claim set p8c — sub the number 5, email the
string "x" — passes extraction, so the produced identity's user_id is not a
string at all and its email contains no @ and hence is not syntactically an
email address. -/
theorem C8_counterexample :
    extract_user_from_jwt p8c = .ok ⟨.num 5, .str "x", []⟩
    ∧ (Json.num 5).isStr = false
    ∧ hasAtSign "x" = false := ⟨rfl, rfl, rfl⟩

/-- C8 (amended): every identity produced by extract_user_from_jwt has a
truthy user_id and a truthy email — neither claim was absent, null, false,
zero, an empty string or an empty collection — but no stronger invariant
holds: the code never checks that either value is a string, nor that email
is syntactically an email address. -/
theorem C8_truthy_identity (payload : List (String × Json))
    (u : AuthenticatedUser) (h : extract_user_from_jwt payload = .ok u) :
    u.user_id.truthy = true ∧ u.email.truthy = true := by
  cases hs : truthyOpt (payload.lookup "sub") with
  | false =>
    exfalso
    simp [extract_user_from_jwt, hs] at h
  | true =>
    cases he : truthyOpt (payload.lookup "email") with
    | false =>
      exfalso
      simp [extract_user_from_jwt, hs, he] at h
    | true =>
      simp only [extract_user_from_jwt, hs, he] at h
      simp at h
      split at h
      · exact absurd h (by simp)
      · cases Except.ok.inj h
        constructor
        · cases hl : payload.lookup "sub" with
          | none =>
            rw [hl] at hs
            exact absurd hs (by simp [truthyOpt])
          | some j =>
            rw [hl] at hs
            simpa [truthyOpt] using hs
        · cases hl : payload.lookup "email" with
          | none =>
            rw [hl] at he
            exact absurd he (by simp [truthyOpt])
          | some j =>
            rw [hl] at he
            simpa [truthyOpt] using he

/-- C8 witness: the identity extracted from p8 has truthy user_id and
email. -/
theorem C8_witness : u8.user_id.truthy = true ∧ u8.email.truthy = true :=
  C8_truthy_identity p8 u8 rfl

/-- C10: the JWKS fetch result is cached after the first call whatever it
was — any later call does no network request, returns exactly the first
call's result and leaves the cache unchanged, and when the first call
failed (returned none) every later key resolution is pinned to the
configured symmetric secret. -/
theorem C10_cache_pins (s : Settings) (f1 f2 : FetchOutcome)
    (c1 c2 : Json → Option String) :
    ((get_supabase_public_key_cached
        (get_supabase_public_key_cached none s f1 c1).cache s f2 c2).result
      = (get_supabase_public_key_cached none s f1 c1).result)
    ∧ ((get_supabase_public_key_cached
        (get_supabase_public_key_cached none s f1 c1).cache s f2 c2).networkAttempt
      = false)
    ∧ ((get_supabase_public_key_cached
        (get_supabase_public_key_cached none s f1 c1).cache s f2 c2).cache
      = (get_supabase_public_key_cached none s f1 c1).cache)
    ∧ ((get_supabase_public_key_cached none s f1 c1).result = none →
      get_jwt_validation_key s
        (get_supabase_public_key_cached
          (get_supabase_public_key_cached none s f1 c1).cache s f2 c2).result
        = (s.SUPABASE_JWT_SECRET, s.JWT_ALGORITHM)) := by
  refine ⟨rfl, rfl, rfl, ?_⟩
  intro h
  have h2 : get_supabase_public_key s f1 c1 = none := h
  show get_jwt_validation_key s (get_supabase_public_key s f1 c1)
    = (s.SUPABASE_JWT_SECRET, s.JWT_ALGORITHM)
  rw [h2]
  rfl

/-- C10 witness: after a first call whose fetch failed, a second call with a
perfectly good fetch still yields the cached none, and key resolution falls
back to the configured secret. -/
theorem C10_witness :
    get_jwt_validation_key s6
      (get_supabase_public_key_cached
        (get_supabase_public_key_cached none s6 .requestError conv6).cache
        s6 (.ok body6) conv6).result
      = ("shh", "HS256") :=
  (C10_cache_pins s6 .requestError (.ok body6) conv6 conv6).2.2.2 rfl

end MatiqAuth
